import Mathlib

/-!
# Firmware metadata layout of `Embedded_Firmware_Manager`

The repository's two C files, `example_info_IAR.c` and `example_info_MDK.c`,
consist of declarations only: constant objects placed at absolute addresses
(`#pragma location=...` for IAR, `__attribute__((at(...)))` for MDK).  The
embedding below records every declaration as data (symbol, qualifiers, type,
address, initialiser), gives the C meaning of the types (`sizeof`) and of the
initialisers (`objectBytes`), and proves the layout properties on that data.

Addresses and bytes are natural numbers; an image maps each address to the byte
stored there.
-/

namespace FirmwareInfo

/-! ## Declarations -/

/-- The identifiers declared by the two source files. -/
inductive Sym where
  | __Firmware_Version
  | __git_commit_id
  | __file_size
  | __bin_checksum
  | __hash_value
  deriving DecidableEq, Repr

/-- The unqualified type of a declaration: type specifier and array declarator. -/
inductive CType where
  /-- The type of `char x[n]`. -/
  | char_array (n : Nat)
  /-- The type of `uint8_t x[n]`. -/
  | uint8_t_array (n : Nat)
  /-- The type of `uint32_t x`. -/
  | uint32_t
  deriving DecidableEq, Repr

/-- The initialiser after `=`: a string literal or an integer constant. -/
inductive Init where
  | str (s : String)
  | int (v : Nat)
  deriving DecidableEq, Repr

/-- One file-scope declaration with an absolute placement. `root` is IAR's
`__root` keyword, `const` and `volatile` are the C type qualifiers, `location`
is the address given in `#pragma location=` or `__attribute__((at(...)))`. -/
structure Decl where
  symbol : Sym
  root : Bool
  const : Bool
  volatile : Bool
  type : CType
  location : Nat
  init : Init
  deriving DecidableEq, Repr

/-- Size in bytes of an object of the given type (`char` and `uint8_t` are one
byte, `uint32_t` is four). -/
def sizeof : CType → Nat
  | .char_array n => n
  | .uint8_t_array n => n
  | .uint32_t => 4

/-- Width of a declared field: the size of its type. -/
def Decl.width (d : Decl) : Nat := sizeof d.type

/-- First address past the field. -/
def Decl.stop (d : Decl) : Nat := d.location + d.width

/-- The byte range `[location, location + width)` of a field contains `a`. -/
def Decl.occupies (d : Decl) (a : Nat) : Prop := d.location ≤ a ∧ a < d.stop

instance (d : Decl) (a : Nat) : Decidable (d.occupies a) := by
  unfold Decl.occupies; infer_instance

namespace example_info_IAR

/-- `#pragma location=0x08004410`
`__root const char __Firmware_Version[10] = "V0.1.2.3";` -/
def __Firmware_Version : Decl :=
  { symbol := .__Firmware_Version, root := true, const := true, volatile := false,
    type := .char_array 10, location := 0x08004410, init := .str "V0.1.2.3" }

/-- `#pragma location=0x08004420`
`__root const char __git_commit_id[7] = "";` -/
def __git_commit_id : Decl :=
  { symbol := .__git_commit_id, root := true, const := true, volatile := false,
    type := .char_array 7, location := 0x08004420, init := .str "" }

/-- `#pragma location=0x08004430`
`__root volatile const uint32_t __file_size = 0;` -/
def __file_size : Decl :=
  { symbol := .__file_size, root := true, const := true, volatile := true,
    type := .uint32_t, location := 0x08004430, init := .int 0 }

/-- `#pragma location=0x08004434`
`__root volatile const uint32_t __bin_checksum = 0;` -/
def __bin_checksum : Decl :=
  { symbol := .__bin_checksum, root := true, const := true, volatile := true,
    type := .uint32_t, location := 0x08004434, init := .int 0 }

/-- The declarations of `example_info_IAR.c`, in source order. -/
def declarations : List Decl :=
  [__Firmware_Version, __git_commit_id, __file_size, __bin_checksum]

end example_info_IAR

namespace example_info_MDK

/-- `const char __Firmware_Version[10] __attribute__((at(0x8001000))) = "V0.0.9.7";` -/
def __Firmware_Version : Decl :=
  { symbol := .__Firmware_Version, root := false, const := true, volatile := false,
    type := .char_array 10, location := 0x8001000, init := .str "V0.0.9.7" }

/-- `const char __git_commit_id[16] __attribute__((at(0x8001010))) = "";` -/
def __git_commit_id : Decl :=
  { symbol := .__git_commit_id, root := false, const := true, volatile := false,
    type := .char_array 16, location := 0x8001010, init := .str "" }

/-- `const uint32_t __file_size __attribute__((at(0x8001020))) = 0;` -/
def __file_size : Decl :=
  { symbol := .__file_size, root := false, const := true, volatile := false,
    type := .uint32_t, location := 0x8001020, init := .int 0 }

/-- `const uint32_t __bin_checksum __attribute__((at(0x8001030))) = 0;` -/
def __bin_checksum : Decl :=
  { symbol := .__bin_checksum, root := false, const := true, volatile := false,
    type := .uint32_t, location := 0x8001030, init := .int 0 }

/-- `const uint8_t __hash_value[32] __attribute__((at(0x8001040))) = "";` -/
def __hash_value : Decl :=
  { symbol := .__hash_value, root := false, const := true, volatile := false,
    type := .uint8_t_array 32, location := 0x8001040, init := .str "" }

/-- The declarations of `example_info_MDK.c`, in source order. -/
def declarations : List Decl :=
  [__Firmware_Version, __git_commit_id, __file_size, __bin_checksum, __hash_value]

end example_info_MDK

/-- The two layout variants: `A` is `example_info_IAR.c`, `B` is
`example_info_MDK.c`. -/
inductive Variant where
  | A
  | B
  deriving DecidableEq, Repr

/-- The fields declared by a variant. -/
def layout : Variant → List Decl
  | .A => example_info_IAR.declarations
  | .B => example_info_MDK.declarations

/-- Lowest declared address of a list of declarations (`none` when empty). -/
def base : List Decl → Option Nat
  | [] => none
  | d :: ds => some (ds.foldl (fun m e => min m e.location) d.location)

/-- The declaration of a symbol in a list of declarations, if there is one. -/
def lookup (ds : List Decl) (s : Sym) : Option Decl :=
  ds.find? (fun d => d.symbol == s)

/-- The layout row of a declaration: symbol, address, width. -/
def Decl.row (d : Decl) : Sym × Nat × Nat := (d.symbol, d.location, d.width)

/-- The type a declaration gives its object, qualifiers included: whether it is
`const`, whether it is `volatile`, and the unqualified type. -/
def Decl.declaredType (d : Decl) : Bool × Bool × CType := (d.const, d.volatile, d.type)

/-! ## Object representation and the linked image -/

/-- A byte string extended with zero bytes up to length `n`. -/
def zeroPad (bs : List Nat) (n : Nat) : List Nat :=
  bs ++ List.replicate (n - bs.length) 0

/-- The four bytes of a 32-bit unsigned value, least significant first (the
targets are little-endian; the layout table lists the integer fields as
little-endian). -/
def le32 (x : Nat) : List Nat :=
  [x % 256, x / 256 % 256, x / 65536 % 256, x / 16777216 % 256]

/-- The bytes of a string literal, one per character, without a terminator. -/
def literalBytes (s : String) : List Nat :=
  s.toList.map (fun c => c.toNat % 256)

/-- The bytes of the object a declaration defines, by the C rules for
initialisers: an array of `char` or `uint8_t` initialised by a string literal
holds the literal's characters and zero bytes in its remaining elements (the
literal may not be longer than the array); a `uint32_t` initialised by an
integer constant holds that value. Any other combination is not valid C and
gives `none`. -/
def objectBytes (d : Decl) : Option (List Nat) :=
  match d.type, d.init with
  | .char_array n, .str s =>
      if s.length ≤ n then some (zeroPad (literalBytes s) n) else none
  | .uint8_t_array n, .str s =>
      if s.length ≤ n then some (zeroPad (literalBytes s) n) else none
  | .uint32_t, .int x => some (le32 x)
  | _, _ => none

/-- A placeholder value: an integer field initialised to `0`, a buffer field
initialised to the empty string, all of whose bytes are then zero. -/
def Decl.isPlaceholder (d : Decl) : Prop :=
  match d.type with
  | .uint32_t => d.init = .int 0
  | _ => d.init = .str "" ∧ objectBytes d = some (List.replicate d.width 0)

instance (d : Decl) : Decidable d.isPlaceholder := by
  unfold Decl.isPlaceholder; split <;> infer_instance

/-- A binary image: the byte stored at each address. -/
abbrev Image := Nat → Nat

/-- The image as linked: the absolute placement puts the bytes of each declared
object at its `location`; every other address keeps the byte of `rest`, the
remainder of the program. -/
def link (ds : List Decl) (rest : Image) : Image := fun a =>
  match ds.find? (fun d => decide (d.occupies a)) with
  | some d =>
      match objectBytes d with
      | some bs => bs.getD (a - d.location) 0
      | none => rest a
  | none => rest a

/-- The bytes of the image at `address`, `address + 1`, ..., `width` of them. -/
def bytesAt (img : Image) (address width : Nat) : List Nat :=
  (List.range width).map (fun k => img (address + k))

/-! ## The operations of the publishing tool -/

/-- Modelled from the spec: the `Read(address, width)` operation of the firmware
at run time, which is not in the two C files. It "returns the `width` bytes
currently stored at `address`", a raw memory read. -/
def Read (img : Image) (address width : Nat) : List Nat :=
  bytesAt img address width

/-- Modelled from the spec: the byte-level overwrite `Patch` performs, the image
with `bytes` stored from `address` on and every other byte unchanged. -/
def write (img : Image) (address : Nat) (bytes : List Nat) : Image := fun a =>
  if address ≤ a ∧ a < address + bytes.length then bytes.getD (a - address) 0 else img a

/-- Modelled from the spec: the one error of the publishing tool. -/
inductive PatchError where
  | LayoutMismatch
  deriving DecidableEq, Repr

/-- Modelled from the spec: the bytes of a placeholder of the given width, "the
zero/empty value a field holds immediately after linking, before the external
tool patches it". -/
def placeholderBytes (width : Nat) : List Nat :=
  List.replicate width 0

/-- Modelled from the spec: the `Patch(name, address, width, value)` operation of
the external publishing tool, which is not in the two C files. `declared` is the
layout present in the linked binary and `value` the encoded bytes. The patch is
rejected with `LayoutMismatch`, the image left as it was, when no declared field
has this name, address and width; when the read-back of `width` bytes at
`address` is not the expected placeholder ("the binary file must already contain
a placeholder of the correct width at that offset", verified before patching);
or when `value` is longer than `width`. Otherwise it "overwrites exactly `width`
bytes at `address`" with `value`, NUL-padded to `width`. Returns the outcome and
the image afterwards. -/
def Patch (declared : List Decl) (name : Sym) (address width : Nat) (value : List Nat)
    (img : Image) : Except PatchError Unit × Image :=
  if declared.any (fun d => d.symbol == name && d.location == address && d.width == width) then
    if Read img address width = placeholderBytes width then
      if value.length ≤ width then
        (.ok (), write img address (zeroPad value width))
      else
        (.error .LayoutMismatch, img)
    else
      (.error .LayoutMismatch, img)
  else
    (.error .LayoutMismatch, img)

/-! ## Layout theorems -/

/-- Arithmetic form of non-overlap, checked on the tables. -/
theorem layout_separated (v : Variant) (i j : Fin (layout v).length) (hij : i ≠ j) :
    ((layout v).get i).stop ≤ ((layout v).get j).location ∨
      ((layout v).get j).stop ≤ ((layout v).get i).location := by
  cases v
  · revert i j; decide
  · revert i j; decide

/-- C1: within each variant, any two distinct declared fields have disjoint byte
ranges `[location, location + width)`: no address lies in both. -/
theorem fields_pairwise_disjoint (v : Variant) (i j : Nat)
    (hi : i < (layout v).length) (hj : j < (layout v).length) (hij : i ≠ j) (a : Nat) :
    ¬ (((layout v).get ⟨i, hi⟩).occupies a ∧ ((layout v).get ⟨j, hj⟩).occupies a) := by
  intro h
  obtain ⟨⟨h1, h2⟩, h3, h4⟩ := h
  have hne : (⟨i, hi⟩ : Fin (layout v).length) ≠ ⟨j, hj⟩ := by
    intro hc
    exact hij (Fin.mk.inj hc)
  rcases layout_separated v ⟨i, hi⟩ ⟨j, hj⟩ hne with hs | hs
  · omega
  · omega

/-- Witness for C1 at Variant A, File Size (index 2) against Checksum (index 3),
at the first address of Checksum. -/
theorem fields_pairwise_disjoint_witness :
    ¬ (((layout .A).get ⟨2, by decide⟩).occupies 0x08004434 ∧
        ((layout .A).get ⟨3, by decide⟩).occupies 0x08004434) :=
  fields_pairwise_disjoint .A 2 3 (by decide) (by decide) (by decide) 0x08004434

/-- C2: the layout of `example_info_IAR.c` is exactly the Variant A table
(Firmware Version 0x08004410/10, Commit Id 0x08004420/7, File Size 0x08004430/4,
Checksum 0x08004434/4), the two integer fields are `uint32_t`, the base is
0x08004410, and no hash field is declared. -/
theorem variant_A_layout :
    (layout .A).map Decl.row =
        [(.__Firmware_Version, 0x08004410, 10), (.__git_commit_id, 0x08004420, 7),
         (.__file_size, 0x08004430, 4), (.__bin_checksum, 0x08004434, 4)] ∧
      (layout .A).map Decl.type = [.char_array 10, .char_array 7, .uint32_t, .uint32_t] ∧
      base (layout .A) = some 0x08004410 ∧
      lookup (layout .A) .__hash_value = none := by
  decide

/-- C3: the layout of `example_info_MDK.c` is exactly the Variant B table
(Firmware Version 0x08001000/10, Commit Id 0x08001010/16, File Size 0x08001020/4,
Checksum 0x08001030/4, Hash Value 0x08001040/32), the two integer fields are
`uint32_t`, the hash field occupies 0x08001040..0x08001060 (end exclusive), and
the base is 0x08001000. -/
theorem variant_B_layout :
    (layout .B).map Decl.row =
        [(.__Firmware_Version, 0x08001000, 10), (.__git_commit_id, 0x08001010, 16),
         (.__file_size, 0x08001020, 4), (.__bin_checksum, 0x08001030, 4),
         (.__hash_value, 0x08001040, 32)] ∧
      (layout .B).map Decl.type =
        [.char_array 10, .char_array 16, .uint32_t, .uint32_t, .uint8_t_array 32] ∧
      (∀ a, example_info_MDK.__hash_value.occupies a ↔ 0x08001040 ≤ a ∧ a < 0x08001060) ∧
      base (layout .B) = some 0x08001000 := by
  refine ⟨by decide, by decide, ?_, by decide⟩
  intro a
  exact Iff.rfl

/-- Membership in Variant A, spelled out. -/
theorem mem_layout_A (d : Decl) (hd : d ∈ layout .A) :
    d = example_info_IAR.__Firmware_Version ∨ d = example_info_IAR.__git_commit_id ∨
      d = example_info_IAR.__file_size ∨ d = example_info_IAR.__bin_checksum := by
  simpa [layout, example_info_IAR.declarations] using hd

/-- Membership in Variant B, spelled out. -/
theorem mem_layout_B (d : Decl) (hd : d ∈ layout .B) :
    d = example_info_MDK.__Firmware_Version ∨ d = example_info_MDK.__git_commit_id ∨
      d = example_info_MDK.__file_size ∨ d = example_info_MDK.__bin_checksum ∨
      d = example_info_MDK.__hash_value := by
  simpa [layout, example_info_MDK.declarations] using hd

/-! ## Initial values -/

/-- C4, as stated, fails: the Firmware Version field of Variant A is a declared
character buffer whose initialiser is not the empty string and whose bytes are
not all zero, so it is not a placeholder. -/
theorem firmware_version_not_placeholder :
    example_info_IAR.__Firmware_Version ∈ layout .A ∧
      example_info_IAR.__Firmware_Version.init ≠ .str "" ∧
      objectBytes example_info_IAR.__Firmware_Version
        ≠ some (List.replicate example_info_IAR.__Firmware_Version.width 0) ∧
      ¬ example_info_IAR.__Firmware_Version.isPlaceholder := by
  decide

/-- C4, amended: in both variants a declared field holds a placeholder value
(buffer initialised to the empty string with all bytes zero, integer initialised
to 0) exactly when it is not the Firmware Version field. -/
theorem placeholder_iff_not_version (v : Variant) (d : Decl) (hd : d ∈ layout v) :
    d.isPlaceholder ↔ d.symbol ≠ .__Firmware_Version := by
  cases v
  · rcases mem_layout_A d hd with h | h | h | h <;> subst h <;> decide
  · rcases mem_layout_B d hd with h | h | h | h | h <;> subst h <;> decide

/-- Witness for amended C4: the Hash Value field of Variant B is a placeholder. -/
theorem placeholder_iff_not_version_witness :
    example_info_MDK.__hash_value ∈ layout .B ∧
      (example_info_MDK.__hash_value.isPlaceholder ↔
        example_info_MDK.__hash_value.symbol ≠ .__Firmware_Version) :=
  ⟨by decide, placeholder_iff_not_version .B example_info_MDK.__hash_value (by decide)⟩

/-- C8: in both variants the object `__Firmware_Version` is 10 bytes: the 8 ASCII
characters of its initialiser ("V0.1.2.3" for IAR, "V0.0.9.7" for MDK) followed
by exactly 2 zero bytes, and these are the bytes of the linked image at the
field's address; the initialiser fits and the byte after its last character, at
offset 8 inside the field, is NUL. -/
theorem firmware_version_nul_padded :
    (example_info_IAR.__Firmware_Version.init = .str "V0.1.2.3" ∧
      example_info_MDK.__Firmware_Version.init = .str "V0.0.9.7") ∧
    (objectBytes example_info_IAR.__Firmware_Version
        = some ("V0.1.2.3".toList.map Char.toNat ++ [0, 0]) ∧
      objectBytes example_info_MDK.__Firmware_Version
        = some ("V0.0.9.7".toList.map Char.toNat ++ [0, 0])) ∧
    ("V0.1.2.3".length = 8 ∧ "V0.0.9.7".length = 8 ∧
      example_info_IAR.__Firmware_Version.width = 10 ∧
      example_info_MDK.__Firmware_Version.width = 10) ∧
    ((∀ c ∈ "V0.1.2.3".toList, c.toNat < 128) ∧ (∀ c ∈ "V0.0.9.7".toList, c.toNat < 128)) ∧
    (∀ rest : Image,
      bytesAt (link (layout .A) rest) 0x08004410 10
          = "V0.1.2.3".toList.map Char.toNat ++ [0, 0] ∧
        bytesAt (link (layout .B) rest) 0x08001000 10
          = "V0.0.9.7".toList.map Char.toNat ++ [0, 0] ∧
        link (layout .A) rest (0x08004410 + 8) = 0 ∧
        link (layout .B) rest (0x08001000 + 8) = 0) := by
  refine ⟨by decide, by decide, by decide, by decide, ?_⟩
  intro rest
  refine ⟨rfl, rfl, rfl, rfl⟩

/-! ## Comparison of the variants -/

/-- C5, as stated, fails: File Size and Checksum are not declared with the same
type in the two files. `example_info_IAR.c` declares them
`volatile const uint32_t`, `example_info_MDK.c` declares them `const uint32_t`. -/
theorem integer_fields_declared_type_differs :
    ((lookup (layout .A) .__file_size).map Decl.declaredType = some (true, true, .uint32_t) ∧
      (lookup (layout .B) .__file_size).map Decl.declaredType = some (true, false, .uint32_t) ∧
      (lookup (layout .A) .__file_size).map Decl.declaredType
        ≠ (lookup (layout .B) .__file_size).map Decl.declaredType) ∧
    ((lookup (layout .A) .__bin_checksum).map Decl.declaredType
        = some (true, true, .uint32_t) ∧
      (lookup (layout .B) .__bin_checksum).map Decl.declaredType
        = some (true, false, .uint32_t) ∧
      (lookup (layout .A) .__bin_checksum).map Decl.declaredType
        ≠ (lookup (layout .B) .__bin_checksum).map Decl.declaredType) := by
  decide

/-- C5, amended: the bases differ (0x08004410 against 0x08001000), the Commit Id
width differs (7 against 16), the Hash Value field is declared by
`example_info_MDK.c` only, and Firmware Version, File Size and Checksum have the
same unqualified type and the same width in both files (`char[10]`/10,
`uint32_t`/4, `uint32_t`/4). With qualifiers, Firmware Version is `const char[10]`
in both files, while File Size and Checksum are `const` in both and `volatile`
in `example_info_IAR.c` only. -/
theorem variants_differ :
    (base (layout .A) = some 0x08004410 ∧ base (layout .B) = some 0x08001000 ∧
      base (layout .A) ≠ base (layout .B)) ∧
    ((lookup (layout .A) .__git_commit_id).map Decl.width = some 7 ∧
      (lookup (layout .B) .__git_commit_id).map Decl.width = some 16) ∧
    (lookup (layout .A) .__hash_value = none ∧
      lookup (layout .B) .__hash_value = some example_info_MDK.__hash_value) ∧
    ((lookup (layout .A) .__Firmware_Version).map (fun d => (d.type, d.width))
        = some (.char_array 10, 10) ∧
      (lookup (layout .B) .__Firmware_Version).map (fun d => (d.type, d.width))
        = some (.char_array 10, 10)) ∧
    ((lookup (layout .A) .__file_size).map (fun d => (d.type, d.width))
        = some (.uint32_t, 4) ∧
      (lookup (layout .B) .__file_size).map (fun d => (d.type, d.width))
        = some (.uint32_t, 4)) ∧
    ((lookup (layout .A) .__bin_checksum).map (fun d => (d.type, d.width))
        = some (.uint32_t, 4) ∧
      (lookup (layout .B) .__bin_checksum).map (fun d => (d.type, d.width))
        = some (.uint32_t, 4)) ∧
    ((lookup (layout .A) .__Firmware_Version).map Decl.declaredType
        = some (true, false, .char_array 10) ∧
      (lookup (layout .B) .__Firmware_Version).map Decl.declaredType
        = some (true, false, .char_array 10)) ∧
    ((lookup (layout .A) .__file_size).map (fun d => (d.const, d.volatile))
        = some (true, true) ∧
      (lookup (layout .B) .__file_size).map (fun d => (d.const, d.volatile))
        = some (true, false)) ∧
    ((lookup (layout .A) .__bin_checksum).map (fun d => (d.const, d.volatile))
        = some (true, true) ∧
      (lookup (layout .B) .__bin_checksum).map (fun d => (d.const, d.volatile))
        = some (true, false)) := by
  decide

/-- The qualifiers of every declaration: the IAR file marks every object
`__root` and its two integers `volatile`, the MDK file uses neither. -/
theorem qualifiers_of_variants :
    (layout .A).map (fun d => (d.root, d.const, d.volatile))
        = [(true, true, false), (true, true, false), (true, true, true), (true, true, true)] ∧
      (layout .B).map (fun d => (d.root, d.const, d.volatile))
        = List.replicate 5 (false, true, false) := by
  decide

/-! ## Alignment -/

/-- C9: every `uint32_t` field of either variant lies at an address divisible
by 4 (0x08004430 and 0x08004434 for IAR, 0x08001020 and 0x08001030 for MDK);
every field of `example_info_MDK.c` starts at an address divisible by 16; and in
`example_info_IAR.c` File Size ends exactly where Checksum starts. -/
theorem integer_fields_aligned :
    (∀ v : Variant, ∀ d ∈ layout v, d.type = .uint32_t → d.location % 4 = 0) ∧
    (((layout .A).filter (fun d => d.type == .uint32_t)).map Decl.row
        = [(.__file_size, 0x08004430, 4), (.__bin_checksum, 0x08004434, 4)] ∧
      ((layout .B).filter (fun d => d.type == .uint32_t)).map Decl.row
        = [(.__file_size, 0x08001020, 4), (.__bin_checksum, 0x08001030, 4)]) ∧
    (∀ d ∈ layout .B, d.location % 16 = 0) ∧
    (example_info_IAR.__file_size.location + 4 = example_info_IAR.__bin_checksum.location ∧
      example_info_IAR.__file_size.stop = example_info_IAR.__bin_checksum.location) := by
  refine ⟨?_, by decide, by decide, by decide⟩
  intro v
  cases v <;> decide

/-- Witness for C9 at the Checksum field of Variant A. -/
theorem integer_fields_aligned_witness :
    example_info_IAR.__bin_checksum ∈ layout .A ∧
      example_info_IAR.__bin_checksum.type = .uint32_t ∧
      example_info_IAR.__bin_checksum.location % 4 = 0 :=
  ⟨by decide, rfl,
    integer_fields_aligned.1 .A example_info_IAR.__bin_checksum (by decide) rfl⟩

/-! ## Patch and Read -/

/-- A request that names a declared field with its own address and width passes
the layout test of `Patch`. -/
theorem declared_field_matches (ds : List Decl) (d : Decl) (hd : d ∈ ds) :
    ds.any (fun e => e.symbol == d.symbol && e.location == d.location && e.width == d.width)
      = true := by
  rw [List.any_eq_true]
  exact ⟨d, hd, by simp⟩

/-- C6: for every variant, every declared field `d` and every value longer than
the field's width, `Patch` at the field's own name, address and width fails with
`LayoutMismatch` and returns the image it was given, whatever that image is. -/
theorem patch_too_long_rejected (v : Variant) (d : Decl) (hd : d ∈ layout v)
    (value : List Nat) (hlen : d.width < value.length) (img : Image) :
    Patch (layout v) d.symbol d.location d.width value img
      = (.error .LayoutMismatch, img) := by
  unfold Patch
  rw [if_pos (declared_field_matches (layout v) d hd), if_neg (Nat.not_le.mpr hlen)]
  split <;> rfl

/-- Witness for C6: an 8-character string into the 7-byte Commit Id of Variant A,
and a 20-byte string into the 10-byte Firmware Version of Variant B, on the
linked images. -/
theorem patch_too_long_rejected_witness :
    (example_info_IAR.__git_commit_id.width = 7 ∧ (literalBytes "a1b2c3d4").length = 8 ∧
      Patch (layout .A) .__git_commit_id 0x08004420 7 (literalBytes "a1b2c3d4")
          (link (layout .A) (fun _ => 255))
        = (.error .LayoutMismatch, link (layout .A) (fun _ => 255))) ∧
    (example_info_MDK.__Firmware_Version.width = 10 ∧
      (literalBytes "V1.0.0.0-rc1+build42").length = 20 ∧
      Patch (layout .B) .__Firmware_Version 0x08001000 10 (literalBytes "V1.0.0.0-rc1+build42")
          (link (layout .B) (fun _ => 255))
        = (.error .LayoutMismatch, link (layout .B) (fun _ => 255))) :=
  ⟨⟨by decide, by decide,
      patch_too_long_rejected .A example_info_IAR.__git_commit_id (by decide)
        (literalBytes "a1b2c3d4") (by decide) (link (layout .A) (fun _ => 255))⟩,
    ⟨by decide, by decide,
      patch_too_long_rejected .B example_info_MDK.__Firmware_Version (by decide)
        (literalBytes "V1.0.0.0-rc1+build42") (by decide) (link (layout .B) (fun _ => 255))⟩⟩

end FirmwareInfo
